import Mathlib

/-!
Verification development for the `bitcoin-rpc` crate (`src/lib.rs`), a
synchronous typed JSON-RPC client for a bitcoin full node.

The embedding is shallow: JSON values are an inductive type, serde's derived
deserializers for the response records are modelled as explicit decoding
functions on that type, the HTTP transport's status classification is a pure
function from the numeric status to `Except Error String`, and the enrichment
operation `get_raw_transaction_with_prevouts` is modelled with the secondary
`get_raw_transaction` lookup abstracted as a function parameter
`lookup : String → Except Error Transaction` (the looked-up txid is also
returned so that "a secondary call was issued" is observable).

`f64` fields (`TxOut.value`) are carried opaquely as their JSON number
representation: the client performs no arithmetic on them, only structural
equality, which the representation preserves.
-/

/-- A JSON number, as mantissa × 10^(-exponent).  Carried opaquely: the
client never computes with numeric response fields. -/
structure JsonNumber where
  mantissa : Int
  exponent : Nat
deriving DecidableEq

/-- The JSON value model (`serde_json::Value`). -/
inductive Json where
  | obj (fields : List (String × Json))
  | arr (items : List Json)
  | str (s : String)
  | num (n : JsonNumber)
  | bool (b : Bool)
  | null

/-- First binding of a field name in a JSON object's field list. -/
def lookupField : List (String × Json) → String → Option Json
  | [], _ => none
  | (k, v) :: rest, name => if k = name then some v else lookupField rest name

/-- Field access on a JSON value: `none` on non-objects and missing fields. -/
def Json.getField : Json → String → Option Json
  | Json.obj fields, name => lookupField fields name
  | _, _ => none

/-- Modelled serde semantics for an `Option<T>` struct field: a field that is
absent, or present with value `null`, reads as `None`; any other present
value is handed to `T`'s deserializer. -/
def optField (j : Json) (name : String) : Option Json :=
  match j.getField name with
  | some Json.null => none
  | some v => some v
  | none => none

/-- Modelled serde deserializer for `String`. -/
def Json.asString : Json → Except String String
  | Json.str s => Except.ok s
  | _ => Except.error "invalid type: expected string"

/-- Modelled serde deserializer for `u32`: a non-negative integer JSON
number below 2^32. -/
def Json.asU32 : Json → Except String Nat
  | Json.num n =>
      if n.exponent = 0 ∧ 0 ≤ n.mantissa ∧ n.mantissa < 4294967296 then
        Except.ok n.mantissa.toNat
      else Except.error "invalid value: expected u32"
  | _ => Except.error "invalid type: expected u32"

/-- Modelled serde deserializer for `f64`: any JSON number, carried as-is. -/
def Json.asNumber : Json → Except String JsonNumber
  | Json.num n => Except.ok n
  | _ => Except.error "invalid type: expected f64"

/-- Element-wise decoding of a JSON sequence, failing on the first element
that fails (serde's `Vec<T>` behaviour). -/
def mapExcept {α β : Type} (f : α → Except String β) : List α → Except String (List β)
  | [] => Except.ok []
  | a :: rest =>
      match f a with
      | Except.ok b =>
          match mapExcept f rest with
          | Except.ok bs => Except.ok (b :: bs)
          | Except.error e => Except.error e
      | Except.error e => Except.error e

/-- Decode an optional struct field (serde `Option<T>` field semantics):
absent/null gives `none`; a present non-null value must decode as `T`. -/
def decodeOptField (T : Type) (dec : Json → Except String T) (j : Json)
    (name : String) : Except String (Option T) :=
  match optField j name with
  | some v => (dec v).map some
  | none => Except.ok none

/-- Decode a required struct field: the field must be present and its value
must decode as `T`. -/
def reqField (T : Type) (dec : Json → Except String T) (j : Json)
    (name : String) : Except String T :=
  match j.getField name with
  | some v => dec v
  | none => Except.error (String.append "missing field " name)

/-- Decode a required sequence-valued struct field element-wise. -/
def arrField (T : Type) (dec : Json → Except String T) (j : Json)
    (name : String) : Except String (List T) :=
  match j.getField name with
  | some (Json.arr elems) => mapExcept dec elems
  | some _ => Except.error "invalid type: expected array"
  | none => Except.error (String.append "missing field " name)

/-- Struct `TxOutScripts` (src/lib.rs:78-82): output-script info with an optional
address. -/
structure TxOutScripts where
  address : Option String
deriving DecidableEq

/-- Struct `TxOut` (src/lib.rs:84-91): value, optional output index `n`, script
info (JSON field `scriptPubKey`, renamed to `script_pub_key`). -/
structure TxOut where
  value : JsonNumber
  n : Option Nat
  script_pub_key : TxOutScripts
deriving DecidableEq

/-- Struct `TxIn` (src/lib.rs:68-76): optional previous-tx id, optional
previous-output index, optional resolved previous output. -/
structure TxIn where
  txid : Option String
  vout : Option Nat
  prevout : Option TxOut
deriving DecidableEq

/-- Struct `Transaction` (src/lib.rs:93-98). -/
structure Transaction where
  txid : String
  vin : List TxIn
  vout : List TxOut
deriving DecidableEq

/-- Modelled derived `Deserialize` for `TxOutScripts`. -/
def TxOutScripts.fromJson (j : Json) : Except String TxOutScripts :=
  match j with
  | Json.obj _ =>
      Except.bind (decodeOptField String Json.asString j "address") (fun address =>
      Except.ok { address := address })
  | _ => Except.error "invalid type: expected object"

/-- Modelled derived `Deserialize` for `TxOut`: `value` and `scriptPubKey`
required, `n` optional. -/
def TxOut.fromJson (j : Json) : Except String TxOut :=
  match j with
  | Json.obj _ =>
      Except.bind (reqField JsonNumber Json.asNumber j "value") (fun value =>
      Except.bind (decodeOptField Nat Json.asU32 j "n") (fun n =>
      Except.bind (reqField TxOutScripts TxOutScripts.fromJson j "scriptPubKey") (fun spk =>
      Except.ok { value := value, n := n, script_pub_key := spk })))
  | _ => Except.error "invalid type: expected object"

/-- Modelled derived `Deserialize` for `TxIn`: all three fields optional;
a present `prevout` value is decoded as a `TxOut`. -/
def TxIn.fromJson (j : Json) : Except String TxIn :=
  match j with
  | Json.obj _ =>
      Except.bind (decodeOptField String Json.asString j "txid") (fun txid =>
      Except.bind (decodeOptField Nat Json.asU32 j "vout") (fun vout =>
      Except.bind (decodeOptField TxOut TxOut.fromJson j "prevout") (fun prevout =>
      Except.ok { txid := txid, vout := vout, prevout := prevout })))
  | _ => Except.error "invalid type: expected object"

/-- Modelled derived `Deserialize` for `Transaction`: required `txid`
string, required `vin` and `vout` arrays. -/
def Transaction.fromJson (j : Json) : Except String Transaction :=
  match j with
  | Json.obj _ =>
      Except.bind (reqField String Json.asString j "txid") (fun txid =>
      Except.bind (arrField TxIn TxIn.fromJson j "vin") (fun vin =>
      Except.bind (arrField TxOut TxOut.fromJson j "vout") (fun vout =>
      Except.ok { txid := txid, vin := vin, vout := vout })))
  | _ => Except.error "invalid type: expected object"

/-- The error taxonomy (src/lib.rs:125-143).  The `reqwest::Error` cause is
carried abstractly as a message string. -/
inductive Error where
  | Reqwest (msg : String)
  | FailedToDeserialize (msg : String)
  | BadResult
  | Unauthorized
  | BadRequest
  | Forbidden
  | NotFound
  | MethodNotAllowed
  | TooManyRequests
  | UnhandledClientError
  | InternalServerError
  | NotImplemented
  | BadGateway
  | ServiceUnavailable
  | GatewayTimeout
  | UnhandledServerError
deriving DecidableEq

/-- Struct `GenericResult<T>` (src/lib.rs:13-16): the generic response envelope
with an optional `result` field. -/
structure GenericResult (T : Type) where
  result : Option T

/-- The client value (src/lib.rs:118-123): host plus credentials, no other
state. -/
structure RpcClient where
  host : String
  username : String
  password : String

/-- The HTTP status classification at the end of `call_jsonrpc`
(src/lib.rs:180-197), as a pure function of the status code (a `u16` in the
source, here a `Nat`) and the response body text. -/
def RpcClient.classifyStatus (status : Nat) (body : String) : Except Error String :=
  if status ≤ 399 then Except.ok body
  else if status = 400 then Except.error Error.BadRequest
  else if status = 401 then Except.error Error.Unauthorized
  else if status = 402 then Except.error Error.UnhandledClientError
  else if status = 403 then Except.error Error.Forbidden
  else if status = 404 then Except.error Error.NotFound
  else if status = 405 then Except.error Error.MethodNotAllowed
  else if 406 ≤ status ∧ status ≤ 428 then Except.error Error.UnhandledClientError
  else if status = 429 then Except.error Error.TooManyRequests
  else if 430 ≤ status ∧ status ≤ 499 then Except.error Error.UnhandledClientError
  else if status = 500 then Except.error Error.InternalServerError
  else if status = 501 then Except.error Error.NotImplemented
  else if status = 502 then Except.error Error.BadGateway
  else if status = 503 then Except.error Error.ServiceUnavailable
  else if status = 504 then Except.error Error.GatewayTimeout
  else Except.error Error.UnhandledServerError

/-- Function `RpcClient::deserialize` (src/lib.rs:200-211), with the outcome of the
external parser (`serde_json::from_str::<GenericResult<T>>`) as input: a
parse error becomes `FailedToDeserialize` with the parser's message; a parsed
envelope with no `result` payload becomes `BadResult`. -/
def RpcClient.deserialize (T : Type) (parsed : Except String (GenericResult T)) :
    Except Error T :=
  match parsed with
  | Except.ok u =>
      match u.result with
      | some data => Except.ok data
      | none => Except.error Error.BadResult
  | Except.error e => Except.error (Error.FailedToDeserialize e)

/-- Modelled `serde_json` parse of a `GenericResult<T>` from a JSON value:
an object whose optional `result` field (absent/null ↦ `none`) is decoded
with `T`'s deserializer. -/
def parseGenericResult (T : Type) (dec : Json → Except String T) (j : Json) :
    Except String (GenericResult T) :=
  match j with
  | Json.obj _ =>
      match optField j "result" with
      | some v => (dec v).map (fun x => { result := some x })
      | none => Except.ok { result := none }
  | _ => Except.error "invalid type: expected object"

/-- The envelope decode specialised to an untyped payload
(`serde_json::Value`), whose own deserializer accepts any value. -/
def decodeJsonResult (j : Json) : Except Error Json :=
  RpcClient.deserialize Json (parseGenericResult Json Except.ok j)

/-- The envelope decode for `Transaction`, the decode path of
`get_raw_transaction` (src/lib.rs:262-264) after parsing the raw text. -/
def decodeTransactionResult (j : Json) : Except Error Transaction :=
  RpcClient.deserialize Transaction
    (parseGenericResult Transaction Transaction.fromJson j)

/-- One Method Catalog call: fixed method name, positional params, and the
per-call timeout in seconds (`None` in the source means no timeout). -/
structure RpcRequest where
  method : String
  params : List Json
  timeout : Option Nat

/-- Method `get_blockchain_info` (src/lib.rs:222-224). -/
def get_blockchain_info_request : RpcRequest :=
  { method := "getblockchaininfo", params := [], timeout := none }

/-- Method `get_network_info` (src/lib.rs:226-228). -/
def get_network_info_request : RpcRequest :=
  { method := "getnetworkinfo", params := [], timeout := none }

/-- Method `get_mining_info` (src/lib.rs:230-232). -/
def get_mining_info_request : RpcRequest :=
  { method := "getmininginfo", params := [], timeout := none }

/-- Method `get_peer_info` (src/lib.rs:234-236). -/
def get_peer_info_request : RpcRequest :=
  { method := "getpeerinfo", params := [], timeout := none }

/-- Method `get_index_info` (src/lib.rs:238-240). -/
def get_index_info_request : RpcRequest :=
  { method := "getindexinfo", params := [], timeout := none }

/-- Method `get_block_count` (src/lib.rs:242-244). -/
def get_block_count_request : RpcRequest :=
  { method := "getblockcount", params := [], timeout := none }

/-- Method `get_block_hash` (src/lib.rs:246-248). -/
def get_block_hash_request (block_height : Nat) : RpcRequest :=
  { method := "getblockhash", params := [Json.num ⟨(block_height : Int), 0⟩],
    timeout := none }

/-- Method `get_block` (src/lib.rs:250-252): verbosity 2, 120-second timeout. -/
def get_block_request (block_hash : String) : RpcRequest :=
  { method := "getblock", params := [Json.str block_hash, Json.num ⟨2, 0⟩],
    timeout := some 120 }

/-- Method `get_block_hex` (src/lib.rs:254-256): verbosity 0, 120-second timeout. -/
def get_block_hex_request (block_hash : String) : RpcRequest :=
  { method := "getblock", params := [Json.str block_hash, Json.num ⟨0, 0⟩],
    timeout := some 120 }

/-- Method `get_raw_mempool` (src/lib.rs:258-260): 120-second timeout. -/
def get_raw_mempool_request : RpcRequest :=
  { method := "getrawmempool", params := [], timeout := some 120 }

/-- Method `get_raw_transaction` (src/lib.rs:262-264): verbose, 120-second
timeout. -/
def get_raw_transaction_request (txid : String) : RpcRequest :=
  { method := "getrawtransaction", params := [Json.str txid, Json.bool true],
    timeout := some 120 }

/-- Method `get_difficulty` (src/lib.rs:289-291). -/
def get_difficulty_request : RpcRequest :=
  { method := "getdifficulty", params := [], timeout := none }

/-- Method `get_txoutset_info` (src/lib.rs:293-295): 1800-second timeout. -/
def get_txoutset_info_request : RpcRequest :=
  { method := "gettxoutsetinfo", params := [], timeout := some 1800 }

/-- The inner `for_each` over the previous transaction's outputs
(src/lib.rs:274-280): each output whose index field `n` equals the input's
referenced `vout` overwrites `prevout`, in output order. -/
def scanOutputs (vout : Nat) (input : TxIn) (outputs : List TxOut) : TxIn :=
  outputs.foldl
    (fun acc output =>
      match output.n with
      | some output_n =>
          if output_n = vout then { acc with prevout := some output } else acc
      | none => acc)
    input

/-- The per-input body of the enrichment loop (src/lib.rs:269-284), with the
secondary `get_raw_transaction` abstracted as `lookup`.  The second component
lists the txids for which a secondary call was issued (empty when the input
lacks `txid` or `vout`; the source issues the call only inside both
`if let Some` arms). -/
def RpcClient.enrichInput (lookup : String → Except Error Transaction)
    (input : TxIn) : TxIn × List String :=
  match input.txid, input.vout with
  | some input_txid, some vout =>
      (match lookup input_txid with
       | Except.ok prev_raw_transaction =>
           scanOutputs vout input prev_raw_transaction.vout
       | Except.error _ => input,
       [input_txid])
  | _, _ => (input, [])

/-- Method `get_raw_transaction_with_prevouts` (src/lib.rs:266-287): fetch the
transaction (propagating failure), then enrich each input in place. -/
def RpcClient.get_raw_transaction_with_prevouts
    (lookup : String → Except Error Transaction) (txid : String) :
    Except Error Transaction :=
  match lookup txid with
  | Except.ok raw_transaction =>
      Except.ok { raw_transaction with
        vin := raw_transaction.vin.map
          (fun input => (RpcClient.enrichInput lookup input).1) }
  | Except.error e => Except.error e

/-- The last output in a list whose index field `n` equals `vout`:
the value `prevout` ends at after the overwriting scan. -/
def lastMatchingOutput (vout : Nat) : List TxOut → Option TxOut
  | [] => none
  | o :: rest =>
      match lastMatchingOutput vout rest with
      | some o' => some o'
      | none => if o.n = some vout then some o else none

/-- Concrete previous transaction used by the witness scenarios. -/
def prevTxFixture : Transaction :=
  { txid := "bb", vin := [],
    vout := [{ value := ⟨7, 0⟩, n := some 0,
               script_pub_key := { address := some "addr0" } },
             { value := ⟨9, 0⟩, n := some 1,
               script_pub_key := { address := some "addr1" } }] }

/-- Concrete transaction under enrichment in the witness scenarios: one
resolvable input, one coinbase-style input, one input whose previous
transaction is unknown to the stub lookup. -/
def mainTxFixture : Transaction :=
  { txid := "aa",
    vin := [{ txid := some "bb", vout := some 1, prevout := none },
            { txid := none, vout := none, prevout := none },
            { txid := some "zz", vout := some 0, prevout := none }],
    vout := [] }

/-- Stub `get_raw_transaction` lookup for the witness scenarios. -/
def lookupFixture : String → Except Error Transaction := fun s =>
  if s = "aa" then Except.ok mainTxFixture
  else if s = "bb" then Except.ok prevTxFixture
  else Except.error Error.BadResult

/-- Previous transaction with two outputs claiming the same index 0. -/
def dupPrevTxFixture : Transaction :=
  { txid := "dup", vin := [],
    vout := [{ value := ⟨3, 0⟩, n := some 0,
               script_pub_key := { address := some "first" } },
             { value := ⟨4, 0⟩, n := some 0,
               script_pub_key := { address := some "second" } }] }

/-- Stub lookup resolving only the duplicate-index previous transaction. -/
def dupLookupFixture : String → Except Error Transaction := fun s =>
  if s = "dup" then Except.ok dupPrevTxFixture
  else Except.error Error.BadResult

/-- A syntactically valid `getrawtransaction` response whose single input
itself carries a `prevout` member. -/
def prevoutResponseFixture : Json :=
  Json.obj [("result", Json.obj
    [("txid", Json.str "aa"),
     ("vin", Json.arr [Json.obj
        [("txid", Json.str "bb"),
         ("vout", Json.num ⟨0, 0⟩),
         ("prevout", Json.obj
            [("value", Json.num ⟨1, 0⟩),
             ("n", Json.num ⟨0, 0⟩),
             ("scriptPubKey", Json.obj [])])]]),
     ("vout", Json.arr [])])]

/-- The `vin` array of `cleanResponseFixture`: one input with no `prevout`
member. -/
def cleanVinFixture : List Json :=
  [Json.obj [("txid", Json.str "bb"), ("vout", Json.num ⟨0, 0⟩)]]

/-- The `result` payload of `cleanResponseFixture`. -/
def cleanResultFixture : Json :=
  Json.obj [("txid", Json.str "aa"),
            ("vin", Json.arr cleanVinFixture),
            ("vout", Json.arr [])]

/-- A `getrawtransaction` response whose input carries no `prevout`
member. -/
def cleanResponseFixture : Json :=
  Json.obj [("result", cleanResultFixture)]

/-- The transaction decoded from `cleanResponseFixture`. -/
def cleanTxFixture : Transaction :=
  { txid := "aa",
    vin := [{ txid := some "bb", vout := some 0, prevout := none }],
    vout := [] }

theorem exceptBind_ok_iff {A B : Type} {m : Except String A}
    {g : A → Except String B} {out : B} :
    Except.bind m g = Except.ok out ↔
      ∃ r, m = Except.ok r ∧ g r = Except.ok out := by
  cases m with
  | ok r0 =>
      constructor
      · intro h
        exact ⟨r0, rfl, h⟩
      · intro h
        obtain ⟨r1, hr1, hg⟩ := h
        injection hr1 with hr1
        subst hr1
        exact hg
  | error e =>
      constructor
      · intro h
        exact absurd h (by simp [Except.bind])
      · intro h
        obtain ⟨r1, hr1, _⟩ := h
        exact absurd hr1 (by simp)

theorem optField_obj {j : Json} {name : String} {v : Json}
    (h : optField j name = some v) : ∃ fields, j = Json.obj fields := by
  cases j with
  | obj fields => exact ⟨fields, rfl⟩
  | null => simp [optField, Json.getField] at h
  | bool b => simp [optField, Json.getField] at h
  | num n => simp [optField, Json.getField] at h
  | str s => simp [optField, Json.getField] at h
  | arr es => simp [optField, Json.getField] at h

theorem getField_obj {j : Json} {name : String} {v : Json}
    (h : Json.getField j name = some v) : ∃ fields, j = Json.obj fields := by
  cases j with
  | obj fields => exact ⟨fields, rfl⟩
  | null => simp [Json.getField] at h
  | bool b => simp [Json.getField] at h
  | num n => simp [Json.getField] at h
  | str s => simp [Json.getField] at h
  | arr es => simp [Json.getField] at h

theorem mapExcept_ok_mem {α β : Type} (f : α → Except String β) :
    ∀ (l : List α) (res : List β), mapExcept f l = Except.ok res →
      ∀ b ∈ res, ∃ a ∈ l, f a = Except.ok b := by
  intro l
  induction l with
  | nil =>
      intro res h b hb
      unfold mapExcept at h
      injection h with h
      subst h
      exact absurd hb (List.not_mem_nil b)
  | cons a rest ih =>
      intro res h b hb
      unfold mapExcept at h
      cases hfa : f a with
      | ok b0 =>
          rw [hfa] at h
          cases hrest : mapExcept f rest with
          | ok bs =>
              rw [hrest] at h
              injection h with h
              subst h
              rcases List.mem_cons.mp hb with rfl | hb'
              · exact ⟨a, List.mem_cons_self a rest, hfa⟩
              · obtain ⟨a', ha', hfa'⟩ := ih bs hrest b hb'
                exact ⟨a', List.mem_cons_of_mem a ha', hfa'⟩
          | error e =>
              rw [hrest] at h
              exact absurd h (by simp)
      | error e =>
          rw [hfa] at h
          exact absurd h (by simp)

theorem scanOutputs_cons (vout : Nat) (input : TxIn) (o : TxOut)
    (rest : List TxOut) :
    scanOutputs vout input (o :: rest) =
      scanOutputs vout
        (match o.n with
         | some output_n =>
             if output_n = vout then { input with prevout := some o } else input
         | none => input)
        rest := rfl


theorem lastMatchingOutput_cons (vout : Nat) (o : TxOut) (rest : List TxOut) :
    lastMatchingOutput vout (o :: rest) =
      match lastMatchingOutput vout rest with
      | some o' => some o'
      | none => if o.n = some vout then some o else none := rfl

theorem scanOutputs_txid (vout : Nat) (outputs : List TxOut) :
    ∀ input : TxIn, (scanOutputs vout input outputs).txid = input.txid := by
  induction outputs with
  | nil => intro input; rfl
  | cons o rest ih =>
      intro input
      rw [scanOutputs_cons, ih]
      cases o.n with
      | none => rfl
      | some m =>
          by_cases hm : m = vout
          · simp [hm]
          · simp [hm]

theorem scanOutputs_vout (vout : Nat) (outputs : List TxOut) :
    ∀ input : TxIn, (scanOutputs vout input outputs).vout = input.vout := by
  induction outputs with
  | nil => intro input; rfl
  | cons o rest ih =>
      intro input
      rw [scanOutputs_cons, ih]
      cases o.n with
      | none => rfl
      | some m =>
          by_cases hm : m = vout
          · simp [hm]
          · simp [hm]

theorem scanOutputs_prevout (vout : Nat) (outputs : List TxOut) :
    ∀ input : TxIn, (scanOutputs vout input outputs).prevout =
      match lastMatchingOutput vout outputs with
      | some o => some o
      | none => input.prevout := by
  induction outputs with
  | nil => intro input; rfl
  | cons o rest ih =>
      intro input
      rw [scanOutputs_cons, ih, lastMatchingOutput_cons]
      cases hrest : lastMatchingOutput vout rest with
      | some o' => rfl
      | none =>
          cases hon : o.n with
          | none => simp
          | some m =>
              by_cases hm : m = vout
              · simp [hm]
              · simp [hm]

theorem lastMatchingOutput_mem (vout : Nat) :
    ∀ (outputs : List TxOut) (o : TxOut),
      lastMatchingOutput vout outputs = some o →
      o ∈ outputs ∧ o.n = some vout := by
  intro outputs
  induction outputs with
  | nil => intro o h; simp [lastMatchingOutput] at h
  | cons p rest ih =>
      intro o h
      rw [lastMatchingOutput_cons] at h
      cases hrest : lastMatchingOutput vout rest with
      | some o' =>
          rw [hrest] at h
          injection h with h2
          subst h2
          obtain ⟨hm, hn⟩ := ih o' hrest
          exact ⟨List.mem_cons_of_mem p hm, hn⟩
      | none =>
          rw [hrest] at h
          by_cases hp : p.n = some vout
          · rw [if_pos hp] at h
            injection h with h2
            subst h2
            exact ⟨List.mem_cons_self p rest, hp⟩
          · rw [if_neg hp] at h
            exact absurd h (by simp)

theorem lastMatchingOutput_of_mem (vout : Nat) :
    ∀ (outputs : List TxOut) (o : TxOut), o ∈ outputs → o.n = some vout →
      ∃ o', lastMatchingOutput vout outputs = some o' := by
  intro outputs
  induction outputs with
  | nil => intro o h _; exact absurd h (List.not_mem_nil o)
  | cons p rest ih =>
      intro o h hn
      rw [lastMatchingOutput_cons]
      cases hrest : lastMatchingOutput vout rest with
      | some o' => exact ⟨o', rfl⟩
      | none =>
          rcases List.mem_cons.mp h with rfl | h'
          · rw [if_pos hn]
            exact ⟨o, rfl⟩
          · obtain ⟨o'', ho''⟩ := ih o h' hn
            rw [ho''] at hrest
            exact absurd hrest (by simp)

theorem lastMatchingOutput_none (vout : Nat) :
    ∀ outputs : List TxOut, (∀ o ∈ outputs, o.n ≠ some vout) →
      lastMatchingOutput vout outputs = none := by
  intro outputs
  induction outputs with
  | nil => intro _; rfl
  | cons p rest ih =>
      intro h
      rw [lastMatchingOutput_cons,
        ih (fun o ho => h o (List.mem_cons_of_mem p ho))]
      rw [if_neg (h p (List.mem_cons_self p rest))]

theorem lastMatchingOutput_append (vout : Nat) :
    ∀ (la lb : List TxOut),
      lastMatchingOutput vout (la ++ lb) =
        match lastMatchingOutput vout lb with
        | some o => some o
        | none => lastMatchingOutput vout la := by
  intro la
  induction la with
  | nil =>
      intro lb
      rw [List.nil_append]
      cases hl : lastMatchingOutput vout lb <;> rfl
  | cons p rest ih =>
      intro lb
      rw [List.cons_append, lastMatchingOutput_cons, ih lb,
        lastMatchingOutput_cons]
      cases hl : lastMatchingOutput vout lb <;>
        cases hr : lastMatchingOutput vout rest <;> rfl

theorem enrichInput_fst_of_some (lookup : String → Except Error Transaction)
    (input : TxIn) (t : String) (v : Nat)
    (ht : input.txid = some t) (hv : input.vout = some v) :
    (RpcClient.enrichInput lookup input).1 =
      match lookup t with
      | Except.ok prev => scanOutputs v input prev.vout
      | Except.error _ => input := by
  unfold RpcClient.enrichInput
  rw [ht, hv]

theorem enrichInput_snd_of_some (lookup : String → Except Error Transaction)
    (input : TxIn) (t : String) (v : Nat)
    (ht : input.txid = some t) (hv : input.vout = some v) :
    (RpcClient.enrichInput lookup input).2 = [t] := by
  unfold RpcClient.enrichInput
  rw [ht, hv]

theorem enrichInput_fst_txid (lookup : String → Except Error Transaction)
    (input : TxIn) :
    (RpcClient.enrichInput lookup input).1.txid = input.txid := by
  cases ht : input.txid with
  | none =>
      unfold RpcClient.enrichInput
      rw [ht]
      cases input.vout <;> exact ht
  | some t =>
      cases hv : input.vout with
      | none =>
          unfold RpcClient.enrichInput
          rw [ht, hv]
          exact ht
      | some v =>
          rw [enrichInput_fst_of_some lookup input t v ht hv]
          cases lookup t with
          | ok prev => exact (scanOutputs_txid v prev.vout input).trans ht
          | error e => exact ht

theorem enrichInput_fst_vout (lookup : String → Except Error Transaction)
    (input : TxIn) :
    (RpcClient.enrichInput lookup input).1.vout = input.vout := by
  cases ht : input.txid with
  | none =>
      unfold RpcClient.enrichInput
      rw [ht]
  | some t =>
      cases hv : input.vout with
      | none =>
          unfold RpcClient.enrichInput
          rw [ht, hv]
          exact hv
      | some v =>
          rw [enrichInput_fst_of_some lookup input t v ht hv]
          cases lookup t with
          | ok prev => exact (scanOutputs_vout v prev.vout input).trans hv
          | error e => exact hv

theorem get_raw_transaction_with_prevouts_ok
    (lookup : String → Except Error Transaction) (txid : String)
    (tx : Transaction) (h : lookup txid = Except.ok tx) :
    RpcClient.get_raw_transaction_with_prevouts lookup txid =
      Except.ok
        { tx with
          vin := tx.vin.map (fun input => (RpcClient.enrichInput lookup input).1) } := by
  unfold RpcClient.get_raw_transaction_with_prevouts
  rw [h]

/-- Claim C1: the transport's status classification returns the body as-is
for every status 0-399, the fixed one-to-one error kind for each of
400/401/403/404/405/429/500/501/502/503/504, the generic
`UnhandledClientError` for every other 4xx, and the generic
`UnhandledServerError` for every other 5xx or unrecognized status (the
status is a `u16` in the source, so "unrecognized" ranges to 65535). -/
theorem claim_C1_status_classification :
    (∀ (status : Nat) (body : String), status ≤ 399 →
        RpcClient.classifyStatus status body = Except.ok body)
  ∧ (∀ body : String,
        RpcClient.classifyStatus 400 body = Except.error Error.BadRequest
      ∧ RpcClient.classifyStatus 401 body = Except.error Error.Unauthorized
      ∧ RpcClient.classifyStatus 403 body = Except.error Error.Forbidden
      ∧ RpcClient.classifyStatus 404 body = Except.error Error.NotFound
      ∧ RpcClient.classifyStatus 405 body = Except.error Error.MethodNotAllowed
      ∧ RpcClient.classifyStatus 429 body = Except.error Error.TooManyRequests
      ∧ RpcClient.classifyStatus 500 body = Except.error Error.InternalServerError
      ∧ RpcClient.classifyStatus 501 body = Except.error Error.NotImplemented
      ∧ RpcClient.classifyStatus 502 body = Except.error Error.BadGateway
      ∧ RpcClient.classifyStatus 503 body = Except.error Error.ServiceUnavailable
      ∧ RpcClient.classifyStatus 504 body = Except.error Error.GatewayTimeout)
  ∧ (∀ (status : Nat) (body : String), 400 ≤ status → status ≤ 499 →
        status ≠ 400 → status ≠ 401 → status ≠ 403 → status ≠ 404 →
        status ≠ 405 → status ≠ 429 →
        RpcClient.classifyStatus status body =
          Except.error Error.UnhandledClientError)
  ∧ (∀ (status : Nat) (body : String), 500 ≤ status → status ≤ 65535 →
        status ≠ 500 → status ≠ 501 → status ≠ 502 → status ≠ 503 →
        status ≠ 504 →
        RpcClient.classifyStatus status body =
          Except.error Error.UnhandledServerError) := by
  refine ⟨?_, ?_, ?_, ?_⟩
  · intro status body h
    unfold RpcClient.classifyStatus
    rw [if_pos h]
  · intro body
    exact ⟨rfl, rfl, rfl, rfl, rfl, rfl, rfl, rfl, rfl, rfl, rfl⟩
  · intro status body h1 h2 e1 e2 e3 e4 e5 e6
    have g0 : ¬ status ≤ 399 := by omega
    unfold RpcClient.classifyStatus
    rw [if_neg g0]
    by_cases c2 : status = 402
    · rw [if_neg e1, if_neg e2, if_pos c2]
    by_cases c6 : 406 ≤ status ∧ status ≤ 428
    · rw [if_neg e1, if_neg e2, if_neg c2, if_neg e3, if_neg e4, if_neg e5,
        if_pos c6]
    have g9 : 430 ≤ status ∧ status ≤ 499 := by omega
    rw [if_neg e1, if_neg e2, if_neg c2, if_neg e3, if_neg e4, if_neg e5,
      if_neg c6, if_neg e6, if_pos g9]
  · intro status body h1 h2 e1 e2 e3 e4 e5
    have g0 : ¬ status ≤ 399 := by omega
    have g400 : status ≠ 400 := by omega
    have g401 : status ≠ 401 := by omega
    have g402 : status ≠ 402 := by omega
    have g403 : status ≠ 403 := by omega
    have g404 : status ≠ 404 := by omega
    have g405 : status ≠ 405 := by omega
    have g406 : ¬ (406 ≤ status ∧ status ≤ 428) := by omega
    have g429 : status ≠ 429 := by omega
    have g430 : ¬ (430 ≤ status ∧ status ≤ 499) := by omega
    unfold RpcClient.classifyStatus
    rw [if_neg g0, if_neg g400, if_neg g401, if_neg g402, if_neg g403,
      if_neg g404, if_neg g405, if_neg g406, if_neg g429, if_neg g430,
      if_neg e1, if_neg e2, if_neg e3, if_neg e4, if_neg e5]

/-- Witness for C1: concrete statuses 200 (success), 418 (unlisted 4xx)
and 505 (unlisted 5xx). -/
theorem claim_C1_status_classification_witness :
    RpcClient.classifyStatus 200 "body" = Except.ok "body"
  ∧ RpcClient.classifyStatus 418 "body" =
      Except.error Error.UnhandledClientError
  ∧ RpcClient.classifyStatus 505 "body" =
      Except.error Error.UnhandledServerError :=
  ⟨claim_C1_status_classification.1 200 "body" (by decide),
   claim_C1_status_classification.2.2.1 418 "body" (by decide) (by decide)
     (by decide) (by decide) (by decide) (by decide) (by decide) (by decide),
   claim_C1_status_classification.2.2.2 505 "body" (by decide) (by decide)
     (by decide) (by decide) (by decide) (by decide) (by decide)⟩

/-- Claim C2: decoding a well-formed envelope whose `result` holds a
non-null payload yields that payload structurally unchanged (both for the
generic `GenericResult T` envelope and at the JSON level); an envelope whose
`result` is null or absent yields `BadResult`. -/
theorem claim_C2_envelope_roundtrip :
    (∀ (T : Type) (x : T),
        RpcClient.deserialize T (Except.ok { result := some x }) = Except.ok x)
  ∧ (∀ T : Type,
        RpcClient.deserialize T (Except.ok { result := none }) =
          Except.error Error.BadResult)
  ∧ (∀ (fields : List (String × Json)) (X : Json), X ≠ Json.null →
        lookupField fields "result" = some X →
        decodeJsonResult (Json.obj fields) = Except.ok X)
  ∧ (∀ fields : List (String × Json),
        (lookupField fields "result" = some Json.null ∨
          lookupField fields "result" = none) →
        decodeJsonResult (Json.obj fields) = Except.error Error.BadResult) := by
  refine ⟨?_, ?_, ?_, ?_⟩
  · intro T x; rfl
  · intro T; rfl
  · intro fields X hX hlk
    have hget : Json.getField (Json.obj fields) "result" = some X := hlk
    have hopt : optField (Json.obj fields) "result" = some X := by
      unfold optField
      rw [hget]
      cases X with
      | null => exact absurd rfl hX
      | bool b => rfl
      | num n => rfl
      | str s => rfl
      | arr es => rfl
      | obj fs => rfl
    unfold decodeJsonResult parseGenericResult
    rw [hopt]
    rfl
  · intro fields h
    have hopt : optField (Json.obj fields) "result" = none := by
      unfold optField
      rcases h with h | h
      · have hget : Json.getField (Json.obj fields) "result" = some Json.null := h
        rw [hget]
      · have hget : Json.getField (Json.obj fields) "result" = none := h
        rw [hget]
    unfold decodeJsonResult parseGenericResult
    rw [hopt]
    rfl

/-- Witness for C2: a string payload round-trips; a null and an absent
`result` both yield `BadResult`. -/
theorem claim_C2_envelope_roundtrip_witness :
    decodeJsonResult (Json.obj [("result", Json.str "payload")]) =
      Except.ok (Json.str "payload")
  ∧ decodeJsonResult (Json.obj [("result", Json.null)]) =
      Except.error Error.BadResult
  ∧ decodeJsonResult (Json.obj []) = Except.error Error.BadResult :=
  ⟨claim_C2_envelope_roundtrip.2.2.1 [("result", Json.str "payload")]
      (Json.str "payload") (fun h => Json.noConfusion h) rfl,
   claim_C2_envelope_roundtrip.2.2.2 [("result", Json.null)] (Or.inl rfl),
   claim_C2_envelope_roundtrip.2.2.2 [] (Or.inr rfl)⟩

/-- Claim C5: an input lacking a previous-tx id or a previous-output index
(e.g., a coinbase input) is returned unchanged and no secondary lookup is
issued for it (the issued-call list of `enrichInput` is empty). -/
theorem claim_C5_skip_incomplete_input
    (lookup : String → Except Error Transaction) (input : TxIn)
    (h : input.txid = none ∨ input.vout = none) :
    RpcClient.enrichInput lookup input = (input, []) := by
  unfold RpcClient.enrichInput
  rcases h with h | h
  · rw [h]
  · rw [h]
    cases input.txid <;> rfl

/-- Witness for C5: a coinbase-style input with no previous-tx id. -/
theorem claim_C5_skip_incomplete_input_witness :
    RpcClient.enrichInput lookupFixture
        { txid := none, vout := none, prevout := none } =
      ({ txid := none, vout := none, prevout := none }, []) :=
  claim_C5_skip_incomplete_input lookupFixture
    { txid := none, vout := none, prevout := none } (Or.inl rfl)

/-- Claim C7: every Method Catalog function uses exactly the fixed per-call
timeout of its call class: no timeout for the metadata/status calls, 120
seconds for block retrieval, mempool listing and raw-transaction retrieval,
1800 seconds for the UTXO-set scan. -/
theorem claim_C7_timeout_policy :
    get_blockchain_info_request.timeout = none
  ∧ get_network_info_request.timeout = none
  ∧ get_mining_info_request.timeout = none
  ∧ get_peer_info_request.timeout = none
  ∧ get_index_info_request.timeout = none
  ∧ get_block_count_request.timeout = none
  ∧ (∀ block_height : Nat,
        (get_block_hash_request block_height).timeout = none)
  ∧ get_difficulty_request.timeout = none
  ∧ (∀ block_hash : String, (get_block_request block_hash).timeout = some 120)
  ∧ (∀ block_hash : String,
        (get_block_hex_request block_hash).timeout = some 120)
  ∧ get_raw_mempool_request.timeout = some 120
  ∧ (∀ txid : String,
        (get_raw_transaction_request txid).timeout = some 120)
  ∧ get_txoutset_info_request.timeout = some 1800 :=
  ⟨rfl, rfl, rfl, rfl, rfl, rfl, fun _ => rfl, rfl, fun _ => rfl,
   fun _ => rfl, rfl, fun _ => rfl, rfl⟩

/-- Claim C8: `deserialize` turns any parser failure into
`FailedToDeserialize` carrying the parser's message, and is total: on every
parser outcome it returns either a payload or an error, never anything
else. -/
theorem claim_C8_deserialize_total :
    (∀ (T : Type) (msg : String),
        RpcClient.deserialize T (Except.error msg) =
          Except.error (Error.FailedToDeserialize msg))
  ∧ (∀ (T : Type) (parsed : Except String (GenericResult T)),
        (∃ x, RpcClient.deserialize T parsed = Except.ok x)
      ∨ (∃ e, RpcClient.deserialize T parsed = Except.error e)) := by
  constructor
  · intro T msg; rfl
  · intro T parsed
    cases parsed with
    | ok u =>
        cases hr : u.result with
        | some x =>
            exact Or.inl ⟨x, by simp [RpcClient.deserialize, hr]⟩
        | none =>
            exact Or.inr ⟨Error.BadResult, by simp [RpcClient.deserialize, hr]⟩
    | error e => exact Or.inr ⟨Error.FailedToDeserialize e, rfl⟩

/-- Claim C3: if an input carries a previous-tx id and index, the secondary
lookup succeeds, and some output of the previous transaction has index
field `n` equal to the referenced index, then the corresponding input of
the returned transaction has `prevout` set to a matching output of that
previous transaction. -/
theorem claim_C3_prevout_set
    (lookup : String → Except Error Transaction) (txid : String)
    (tx : Transaction) (i : Nat) (hi : i < tx.vin.length) (t : String)
    (v : Nat) (prev : Transaction) (o : TxOut)
    (hlk : lookup txid = Except.ok tx)
    (ht : (tx.vin.get ⟨i, hi⟩).txid = some t)
    (hv : (tx.vin.get ⟨i, hi⟩).vout = some v)
    (hl : lookup t = Except.ok prev)
    (hmem : o ∈ prev.vout) (hon : o.n = some v) :
    ∃ (tx' : Transaction) (hlen : i < tx'.vin.length) (o' : TxOut),
      RpcClient.get_raw_transaction_with_prevouts lookup txid =
        Except.ok tx' ∧
      o' ∈ prev.vout ∧ o'.n = some v ∧
      (tx'.vin.get ⟨i, hlen⟩).prevout = some o' := by
  obtain ⟨o'', ho''⟩ := lastMatchingOutput_of_mem v prev.vout o hmem hon
  obtain ⟨hm'', hn''⟩ := lastMatchingOutput_mem v prev.vout o'' ho''
  have hlen : i < (tx.vin.map (fun input => (RpcClient.enrichInput lookup input).1)).length := by
    simpa using hi
  refine ⟨_, hlen, o'',
    get_raw_transaction_with_prevouts_ok lookup txid tx hlk, hm'', hn'', ?_⟩
  have hget : ({ tx with vin := tx.vin.map (fun input => (RpcClient.enrichInput lookup input).1) }).vin.get ⟨i, hlen⟩ = (RpcClient.enrichInput lookup (tx.vin.get ⟨i, hi⟩)).1 := by
    simp [List.get_eq_getElem, List.getElem_map]
  rw [hget, enrichInput_fst_of_some lookup (tx.vin.get ⟨i, hi⟩) t v ht hv, hl]
  show (scanOutputs v (tx.vin.get ⟨i, hi⟩) prev.vout).prevout = some o''
  rw [scanOutputs_prevout v prev.vout, ho'']

/-- Witness for C3: the stub resolves input 0 of the main fixture to output
index 1 of the previous transaction. -/
theorem claim_C3_prevout_set_witness :
    ∃ (tx' : Transaction) (hlen : 0 < tx'.vin.length) (o' : TxOut),
      RpcClient.get_raw_transaction_with_prevouts lookupFixture "aa" =
        Except.ok tx' ∧
      o' ∈ prevTxFixture.vout ∧ o'.n = some 1 ∧
      (tx'.vin.get ⟨0, hlen⟩).prevout = some o' :=
  claim_C3_prevout_set lookupFixture "aa" mainTxFixture 0 (by decide) "bb" 1
    prevTxFixture
    { value := ⟨9, 0⟩, n := some 1, script_pub_key := { address := some "addr1" } }
    rfl rfl rfl rfl (by decide) rfl

/-- Claim C4: if the secondary lookup for an input fails, or succeeds with
no output whose index field equals the referenced index, the input's
`prevout` stays absent and the overall enrichment still succeeds. -/
theorem claim_C4_lookup_failure_local
    (lookup : String → Except Error Transaction) (txid : String)
    (tx : Transaction) (i : Nat) (hi : i < tx.vin.length) (t : String)
    (v : Nat)
    (hlk : lookup txid = Except.ok tx)
    (ht : (tx.vin.get ⟨i, hi⟩).txid = some t)
    (hv : (tx.vin.get ⟨i, hi⟩).vout = some v)
    (hp : (tx.vin.get ⟨i, hi⟩).prevout = none)
    (hfail : (∃ e, lookup t = Except.error e) ∨
      (∀ prev, lookup t = Except.ok prev → ∀ o ∈ prev.vout, o.n ≠ some v)) :
    ∃ (tx' : Transaction) (hlen : i < tx'.vin.length),
      RpcClient.get_raw_transaction_with_prevouts lookup txid =
        Except.ok tx' ∧
      (tx'.vin.get ⟨i, hlen⟩).prevout = none := by
  have hlen : i < (tx.vin.map (fun input => (RpcClient.enrichInput lookup input).1)).length := by
    simpa using hi
  refine ⟨_, hlen,
    get_raw_transaction_with_prevouts_ok lookup txid tx hlk, ?_⟩
  have hget : ({ tx with vin := tx.vin.map (fun input => (RpcClient.enrichInput lookup input).1) }).vin.get ⟨i, hlen⟩ = (RpcClient.enrichInput lookup (tx.vin.get ⟨i, hi⟩)).1 := by
    simp [List.get_eq_getElem, List.getElem_map]
  rw [hget, enrichInput_fst_of_some lookup (tx.vin.get ⟨i, hi⟩) t v ht hv]
  cases hlt : lookup t with
  | error e => exact hp
  | ok prev =>
      rcases hfail with ⟨e, he⟩ | hno
      · rw [hlt] at he
        exact absurd he (by simp)
      · show (scanOutputs v (tx.vin.get ⟨i, hi⟩) prev.vout).prevout = none
        rw [scanOutputs_prevout v prev.vout,
          lastMatchingOutput_none v prev.vout (hno prev hlt)]
        exact hp

/-- Witness for C4: input 2 of the main fixture references a previous
transaction the stub cannot resolve; its `prevout` stays absent and the
call still succeeds. -/
theorem claim_C4_lookup_failure_local_witness :
    ∃ (tx' : Transaction) (hlen : 2 < tx'.vin.length),
      RpcClient.get_raw_transaction_with_prevouts lookupFixture "aa" =
        Except.ok tx' ∧
      (tx'.vin.get ⟨2, hlen⟩).prevout = none :=
  claim_C4_lookup_failure_local lookupFixture "aa" mainTxFixture 2 (by decide)
    "zz" 0 rfl rfl rfl rfl (Or.inl ⟨Error.BadResult, rfl⟩)

/-- Claim C9 (frame): enrichment modifies nothing but `TxIn.prevout`: the
returned transaction keeps the primary result's txid, output sequence,
input count and order, and every input's txid and vout. -/
theorem claim_C9_enrichment_frame
    (lookup : String → Except Error Transaction) (txid : String)
    (tx : Transaction) (hlk : lookup txid = Except.ok tx) :
    ∃ tx', RpcClient.get_raw_transaction_with_prevouts lookup txid =
        Except.ok tx' ∧
      tx'.txid = tx.txid ∧ tx'.vout = tx.vout ∧
      tx'.vin.length = tx.vin.length ∧
      ∀ (i : Nat) (hi : i < tx.vin.length) (hi' : i < tx'.vin.length),
        (tx'.vin.get ⟨i, hi'⟩).txid = (tx.vin.get ⟨i, hi⟩).txid ∧
        (tx'.vin.get ⟨i, hi'⟩).vout = (tx.vin.get ⟨i, hi⟩).vout := by
  refine ⟨_, get_raw_transaction_with_prevouts_ok lookup txid tx hlk,
    rfl, rfl, by simp, ?_⟩
  intro i hi hi'
  have hget : ({ tx with vin := tx.vin.map (fun input => (RpcClient.enrichInput lookup input).1) }).vin.get ⟨i, hi'⟩ = (RpcClient.enrichInput lookup (tx.vin.get ⟨i, hi⟩)).1 := by
    simp [List.get_eq_getElem, List.getElem_map]
  rw [hget]
  exact ⟨enrichInput_fst_txid lookup _, enrichInput_fst_vout lookup _⟩

/-- Witness for C9: the frame condition at the main fixture. -/
theorem claim_C9_enrichment_frame_witness :
    ∃ tx', RpcClient.get_raw_transaction_with_prevouts lookupFixture "aa" =
        Except.ok tx' ∧
      tx'.txid = mainTxFixture.txid ∧ tx'.vout = mainTxFixture.vout ∧
      tx'.vin.length = mainTxFixture.vin.length ∧
      ∀ (i : Nat) (hi : i < mainTxFixture.vin.length)
        (hi' : i < tx'.vin.length),
        (tx'.vin.get ⟨i, hi'⟩).txid = (mainTxFixture.vin.get ⟨i, hi⟩).txid ∧
        (tx'.vin.get ⟨i, hi'⟩).vout = (mainTxFixture.vin.get ⟨i, hi⟩).vout :=
  claim_C9_enrichment_frame lookupFixture "aa" mainTxFixture rfl

/-- Claim C10 (implicit): when several outputs of the previous transaction
carry the same index field, the input's `prevout` ends at the last such
output in the output sequence (each match overwrites the previous one), and
outputs with an absent index field never match (they satisfy the
no-match-after condition below vacuously). -/
theorem claim_C10_last_match_wins
    (lookup : String → Except Error Transaction) (input : TxIn) (t : String)
    (v : Nat) (prev : Transaction) (la lb : List TxOut) (o : TxOut)
    (ht : input.txid = some t) (hv : input.vout = some v)
    (hl : lookup t = Except.ok prev)
    (hsplit : prev.vout = la ++ o :: lb) (hon : o.n = some v)
    (hafter : ∀ o' ∈ lb, o'.n ≠ some v) :
    (RpcClient.enrichInput lookup input).1.prevout = some o := by
  have hnone : lastMatchingOutput v lb = none :=
    lastMatchingOutput_none v lb hafter
  have hcons : lastMatchingOutput v (o :: lb) = some o := by
    rw [lastMatchingOutput_cons, hnone]
    show (if o.n = some v then some o else none) = some o
    rw [if_pos hon]
  have happ : lastMatchingOutput v (la ++ o :: lb) = some o := by
    rw [lastMatchingOutput_append v la (o :: lb), hcons]
  rw [enrichInput_fst_of_some lookup input t v ht hv, hl]
  show (scanOutputs v input prev.vout).prevout = some o
  rw [scanOutputs_prevout v prev.vout, hsplit, happ]

/-- Witness for C10: two outputs both claim index 0; the second (last) one
wins. -/
theorem claim_C10_last_match_wins_witness :
    (RpcClient.enrichInput dupLookupFixture
        { txid := some "dup", vout := some 0, prevout := none }).1.prevout =
      some { value := ⟨4, 0⟩, n := some 0,
             script_pub_key := { address := some "second" } } :=
  claim_C10_last_match_wins dupLookupFixture
    { txid := some "dup", vout := some 0, prevout := none } "dup" 0
    dupPrevTxFixture
    [{ value := ⟨3, 0⟩, n := some 0,
       script_pub_key := { address := some "first" } }]
    []
    { value := ⟨4, 0⟩, n := some 0,
      script_pub_key := { address := some "second" } }
    rfl rfl rfl rfl rfl (fun o' h => absurd h (List.not_mem_nil o'))

theorem TxIn.fromJson_prevout_none {v : Json} {t : TxIn}
    (hp : optField v "prevout" = none) (h : TxIn.fromJson v = Except.ok t) :
    t.prevout = none := by
  cases v with
  | obj fields =>
      unfold TxIn.fromJson at h
      simp only [exceptBind_ok_iff, Except.ok.injEq] at h
      obtain ⟨txid0, h1, vout0, h2, prevout0, h3, h4⟩ := h
      subst h4
      have h3' : (Except.ok none : Except String (Option TxOut)) =
          Except.ok prevout0 := by
        rw [← h3]
        unfold decodeOptField
        rw [hp]
      injection h3' with h3'
      exact h3'.symm
  | null => simp [TxIn.fromJson] at h
  | bool b => simp [TxIn.fromJson] at h
  | num n => simp [TxIn.fromJson] at h
  | str s => simp [TxIn.fromJson] at h
  | arr es => simp [TxIn.fromJson] at h

theorem Transaction.fromJson_vin {j : Json} {vinArr : List Json}
    {tx : Transaction}
    (hv : Json.getField j "vin" = some (Json.arr vinArr))
    (h : Transaction.fromJson j = Except.ok tx) :
    mapExcept TxIn.fromJson vinArr = Except.ok tx.vin := by
  obtain ⟨fields, rfl⟩ := getField_obj hv
  unfold Transaction.fromJson at h
  simp only [exceptBind_ok_iff, Except.ok.injEq] at h
  obtain ⟨txid0, h1, vin0, h2, vout0, h3, h4⟩ := h
  subst h4
  unfold arrField at h2
  rw [hv] at h2
  exact h2

theorem decodeTransactionResult_ok {env rj : Json} {tx : Transaction}
    (hres : optField env "result" = some rj)
    (h : decodeTransactionResult env = Except.ok tx) :
    Transaction.fromJson rj = Except.ok tx := by
  obtain ⟨fields, rfl⟩ := optField_obj hres
  unfold decodeTransactionResult parseGenericResult at h
  rw [hres] at h
  have h2 : RpcClient.deserialize Transaction
      (Except.map (fun x => ({ result := some x } : GenericResult Transaction))
        (Transaction.fromJson rj)) = Except.ok tx := h
  cases hf : Transaction.fromJson rj with
  | ok t =>
      rw [hf] at h2
      have h' : Except.ok t = Except.ok tx := h2
      injection h' with h'
      rw [h']
  | error e =>
      rw [hf] at h2
      exact absurd
        (show Except.error (Error.FailedToDeserialize e) = Except.ok tx from h2)
        (by simp)

/-- Counterexample to claim C6 as stated: the decoder populates `prevout`
from the response itself whenever the response's input object carries a
`prevout` member, so it is not true that every decoded transaction has all
`prevout` fields absent. -/
theorem claim_C6_counterexample_prevout_from_response :
    ¬ (∀ (j : Json) (tx : Transaction),
        decodeTransactionResult j = Except.ok tx →
        ∀ input ∈ tx.vin, input.prevout = none) := by
  intro hclaim
  have hd : decodeTransactionResult prevoutResponseFixture =
      Except.ok
        { txid := "aa",
          vin := [{ txid := some "bb", vout := some 0,
                    prevout := some { value := ⟨1, 0⟩, n := some 0,
                                      script_pub_key := { address := none } } }],
          vout := [] } := rfl
  have hin := hclaim prevoutResponseFixture _ hd
    { txid := some "bb", vout := some 0,
      prevout := some { value := ⟨1, 0⟩, n := some 0,
                        script_pub_key := { address := none } } }
    (List.mem_singleton.mpr rfl)
  simp at hin

/-- Claim C6 (amended): decoding a Transaction yields `prevout` absent on
every input whose JSON object in the response lacks a `prevout` member (or
carries it as null); since the node's `getrawtransaction` verbose responses
carry no such member, `prevout` starts absent and is populated only by
enrichment.  (The unamended claim fails because the derived decoder fills
`prevout` whenever the response itself carries that member.) -/
theorem claim_C6_prevout_absent_amended
    (env rj : Json) (vinArr : List Json) (tx : Transaction)
    (hres : optField env "result" = some rj)
    (hvin : Json.getField rj "vin" = some (Json.arr vinArr))
    (hnoprev : ∀ v ∈ vinArr, optField v "prevout" = none)
    (hdec : decodeTransactionResult env = Except.ok tx) :
    ∀ input ∈ tx.vin, input.prevout = none := by
  intro input hmem
  have hfj := decodeTransactionResult_ok hres hdec
  have hmap := Transaction.fromJson_vin hvin hfj
  obtain ⟨vj, hvj, hok⟩ :=
    mapExcept_ok_mem TxIn.fromJson vinArr tx.vin hmap input hmem
  exact TxIn.fromJson_prevout_none (hnoprev vj hvj) hok

/-- Witness for the amended C6: the clean fixture (no `prevout` member)
decodes with `prevout` absent. -/
theorem claim_C6_prevout_absent_amended_witness :
    ({ txid := some "bb", vout := some 0, prevout := none } : TxIn).prevout =
      none :=
  claim_C6_prevout_absent_amended cleanResponseFixture cleanResultFixture
    cleanVinFixture cleanTxFixture rfl rfl
    (fun v hv => by
      simp only [cleanVinFixture, List.mem_singleton] at hv
      subst hv
      rfl)
    rfl
    { txid := some "bb", vout := some 0, prevout := none }
    (List.mem_singleton.mpr rfl)
